import Mathlib

/-!
Verification of the CarlaSim sensor-capture pipeline (CarlaSuite package).

Each definition below is a shallow embedding of a piece of the Python
source, translated function by function:

* the bounded sensor queue and its overflow handling come from
  CarlaSensorManager._sensor_callback (src/CarlaSuite/sensor.py, lines
  149-167): a queue of fixed capacity; when full, one item is removed
  from the front with get_nowait and the new item is appended with put;
* the worker loop comes from CarlaSensorManager.start_processing_thread
  (sensor.py, lines 175-185);
* the recorder state machine, metadata loop, flush policy, and the
  per-modality decode come from CarlaRecorder (src/CarlaSuite/recorder.py);
* the data-processor shutdown comes from CarlaDataProcessor.stop
  (src/CarlaSuite/data.py, lines 243-259).

Python machine floats are modelled as exact rationals or reals; byte
channels are naturals below 256 where it matters.
-/

/-! ### Bounded sensor queue (sensor.py, _sensor_callback)

A queue.Queue with maxsize cap is a FIFO list, front first.  The
callback body for a registered sensor id is:

  if queue.full(): queue.get_nowait()   -- evict the oldest item
  queue.put(data)                       -- append the new item

full() holds when the length has reached the capacity. -/

/-- One submit into a bounded sensor queue: evict the front when the
queue is at capacity, then append the new sample at the back. -/
def sensorQueuePut (cap : Nat) (items : List Nat) (x : Nat) : List Nat :=
  let items1 := if cap ≤ items.length then items.tail else items
  items1 ++ [x]

/-- A whole sequence of submits into an initially empty queue with no
consumer dequeuing. -/
def submitAll (cap : Nat) (xs : List Nat) : List Nat :=
  xs.foldl (sensorQueuePut cap) []

theorem sensorQueuePut_foldl (cap : Nat) (hcap : 1 ≤ cap) :
    ∀ (xs q : List Nat), q.length ≤ cap →
      xs.foldl (sensorQueuePut cap) q = (q ++ xs).drop (q.length + xs.length - cap) := by
  intro xs
  induction xs with
  | nil =>
    intro q hq
    simp [Nat.sub_eq_zero_of_le hq]
  | cons x xs ih =>
    intro q hq
    by_cases h : cap ≤ q.length
    · have hlen : q.length = cap := Nat.le_antisymm hq h
      have hne : q ≠ [] := by
        intro hnil
        rw [hnil] at hlen
        simp at hlen
        omega
      obtain ⟨a, q', rfl⟩ := List.exists_cons_of_ne_nil hne
      have hstep : sensorQueuePut cap (a :: q') x = q' ++ [x] := by
        have hc : cap ≤ q'.length + 1 := by simpa using h
        simp [sensorQueuePut, hc]
      have hlen' : (q' ++ [x]).length ≤ cap := by
        simp at hlen ⊢
        omega
      calc ((x :: xs).foldl (sensorQueuePut cap) (a :: q'))
        = xs.foldl (sensorQueuePut cap) (q' ++ [x]) := by
            rw [List.foldl_cons, hstep]
        _ = ((q' ++ [x]) ++ xs).drop ((q' ++ [x]).length + xs.length - cap) := ih _ hlen'
        _ = ((a :: q') ++ x :: xs).drop ((a :: q').length + (x :: xs).length - cap) := by
            simp at hlen ⊢
            have h1 : q'.length + 1 + xs.length - cap = xs.length := by omega
            have h2 : q'.length + 1 + (xs.length + 1) - cap = xs.length + 1 := by omega
            rw [h1, h2]
            simp [List.drop_succ_cons]
    · have hstep : sensorQueuePut cap q x = q ++ [x] := by
        simp [sensorQueuePut, h]
      have hlen' : (q ++ [x]).length ≤ cap := by
        simp
        omega
      calc ((x :: xs).foldl (sensorQueuePut cap) q)
        = xs.foldl (sensorQueuePut cap) (q ++ [x]) := by
            rw [List.foldl_cons, hstep]
        _ = ((q ++ [x]) ++ xs).drop ((q ++ [x]).length + xs.length - cap) := ih _ hlen'
        _ = (q ++ x :: xs).drop (q.length + (x :: xs).length - cap) := by
            simp
            congr 1
            omega

/-- C1: for every sequence of submits into a bounded queue of capacity
cap ≥ 1 with no consumer, the queue never exceeds cap items at any
prefix of the sequence, the retained items are exactly the cap most
recently submitted ones in submission order, and in particular 35
submits into a capacity-30 queue retain items 6 through 35 (1-indexed). -/
theorem submit_drop_oldest_law (cap : Nat) (hcap : 1 ≤ cap) (xs : List Nat) :
    (∀ n, (submitAll cap (xs.take n)).length ≤ cap) ∧
    submitAll cap xs = xs.drop (xs.length - cap) ∧
    submitAll 30 (List.range 35) = (List.range 35).drop 5 := by
  have key : ∀ ys : List Nat, submitAll cap ys = ys.drop (ys.length - cap) := by
    intro ys
    have h := sensorQueuePut_foldl cap hcap ys [] (by simp)
    simpa [submitAll] using h
  refine ⟨?_, key xs, ?_⟩
  swap
  · have h30 := sensorQueuePut_foldl 30 (by norm_num) (List.range 35) [] (by simp)
    simpa [submitAll] using h30
  intro n
  rw [key (xs.take n)]
  simp
  omega

/-- Concrete instance of the drop-oldest law at capacity 30 with 35
submitted samples. -/
theorem submit_drop_oldest_law_witness :
    1 ≤ 30 ∧
    ((∀ n, (submitAll 30 ((List.range 35).take n)).length ≤ 30) ∧
     submitAll 30 (List.range 35) = (List.range 35).drop (List.length (List.range 35) - 30) ∧
     submitAll 30 (List.range 35) = (List.range 35).drop 5) :=
  ⟨by decide, submit_drop_oldest_law 30 (by decide) (List.range 35)⟩

/-! ### Sensor ingest gateway (sensor.py, _sensor_callback, full body)

The callback receives a sample for a sensor id.  Its whole body runs
inside a try/except that logs and swallows every exception, so the
caller never sees one.  If the id is registered, the queue update of
sensorQueuePut runs; the final put would block only if the queue were
still at capacity after the conditional eviction.  An optional custom
callback runs afterwards and may itself raise, in which case the
exception is caught and logged; the queue update has already happened.
There is no log statement and no counter on the overflow path. -/

/-- Gateway state: the registry of per-sensor queues (assoc list keyed
by sensor id) and the log. -/
structure Gateway where
  queues : List (Nat × List Nat)
  logs : List String
deriving DecidableEq

/-- Association-list lookup of a sensor queue by id, as done by the
dict access in the callback. -/
def lookupQueue : List (Nat × List Nat) → Nat → Option (List Nat)
  | [], _ => none
  | p :: ps, k => if p.1 = k then some p.2 else lookupQueue ps k

/-- Replace the queue stored under a sensor id, modelling the in-place
mutation of the queue object held in the dict. -/
def setQueue (qs : List (Nat × List Nat)) (k : Nat) (v : List Nat) :
    List (Nat × List Nat) :=
  qs.map fun p => if p.1 = k then (k, v) else p

/-- The error message logged by the except-branch of the callback. -/
def sensorCallbackErrMsg : String := "Error in sensor callback"

/-- The queue-update step of the callback: skip silently when the id is
unregistered; otherwise evict the front when full, then put.  Returns
none when the final put would block (queue still at capacity). -/
def gatewayQueueStep (cap : Nat) (gw : Gateway) (k : Nat) (x : Nat) :
    Option Gateway :=
  match lookupQueue gw.queues k with
  | none => some gw
  | some q =>
    let q1 := if cap ≤ q.length then q.tail else q
    if cap ≤ q1.length then none
    else some { gw with queues := setQueue gw.queues k (q1 ++ [x]) }

/-- The full callback: queue update, then the custom callback (whose
failure is modelled by the cbFail flag); any exception from the latter
is caught and logged.  Returns none only if the put blocked. -/
def sensorCallback (cap : Nat) (gw : Gateway) (k : Nat) (x : Nat)
    (cbFail : Bool) : Option Gateway :=
  match gatewayQueueStep cap gw k x with
  | none => none
  | some g1 =>
    some (if cbFail then { g1 with logs := g1.logs ++ [sensorCallbackErrMsg] } else g1)

theorem lookupQueue_mem {qs : List (Nat × List Nat)} {k : Nat} {q : List Nat}
    (h : lookupQueue qs k = some q) : (k, q) ∈ qs := by
  induction qs with
  | nil => simp [lookupQueue] at h
  | cons p ps ih =>
    obtain ⟨k1, v1⟩ := p
    by_cases hp : k1 = k
    · simp [lookupQueue, hp] at h
      subst hp
      subst h
      exact List.mem_cons_self _ _
    · simp [lookupQueue, hp] at h
      exact List.mem_cons_of_mem _ (ih h)

theorem lookupQueue_setQueue {qs : List (Nat × List Nat)} {k : Nat} {q : List Nat}
    (v : List Nat) (h : lookupQueue qs k = some q) :
    lookupQueue (setQueue qs k v) k = some v := by
  induction qs with
  | nil => simp [lookupQueue] at h
  | cons p ps ih =>
    obtain ⟨k1, v1⟩ := p
    by_cases hp : k1 = k
    · simp [setQueue, lookupQueue, hp]
    · simp [lookupQueue, hp] at h
      simp [setQueue, lookupQueue, hp]
      exact ih h

/-- C8 counterexample: the source handles an overflowing queue by
silently evicting the oldest item; it writes no log entry (and keeps no
drop counter), so the claim that a full queue is logged and counted
fails on a concrete full-queue submit. -/
theorem submit_overflow_logged_counterexample :
    ¬ (∀ g, sensorCallback 3 ⟨[(0, [1, 2, 3])], []⟩ 0 4 false = some g →
        g.logs ≠ []) := by
  intro h
  exact h ⟨[(0, [2, 3, 4])], []⟩ rfl rfl

/-- C8 amended: for every incoming sample and every queue state whose
queues respect the capacity bound, submit never blocks the caller
(gives some result) and never lets an exception reach the caller (a
failing custom callback only appends a log entry); overflow of a
registered full queue is handled by evicting the front item and
enqueueing the new one, with no log entry from the overflow itself. -/
theorem submit_never_blocks_amended (cap k x : Nat) (cbFail : Bool) (gw : Gateway)
    (hcap : 1 ≤ cap) (hinv : ∀ p ∈ gw.queues, List.length p.2 ≤ cap) :
    ∃ g, sensorCallback cap gw k x cbFail = some g ∧
      g.logs = (if cbFail then gw.logs ++ [sensorCallbackErrMsg] else gw.logs) ∧
      (∀ q, lookupQueue gw.queues k = some q →
        lookupQueue g.queues k = some ((if cap ≤ q.length then q.tail else q) ++ [x])) := by
  rcases hl : lookupQueue gw.queues k with _ | q
  · refine ⟨if cbFail then { gw with logs := gw.logs ++ [sensorCallbackErrMsg] } else gw,
      ?_, ?_, ?_⟩
    · simp [sensorCallback, gatewayQueueStep, hl]
    · cases cbFail <;> simp
    · intro q hq
      simp at hq
  · have hqlen : q.length ≤ cap := hinv (k, q) (lookupQueue_mem hl)
    have hnb : ¬ cap ≤ (if cap ≤ q.length then q.tail else q).length := by
      by_cases hfull : cap ≤ q.length
      · have hlen : q.length = cap := Nat.le_antisymm hqlen hfull
        simp [hfull, List.length_tail]
        omega
      · simp [hfull]
    refine ⟨if cbFail
        then Gateway.mk (setQueue gw.queues k ((if cap ≤ q.length then q.tail else q) ++ [x]))
          (gw.logs ++ [sensorCallbackErrMsg])
        else Gateway.mk (setQueue gw.queues k ((if cap ≤ q.length then q.tail else q) ++ [x]))
          gw.logs,
      ?_, ?_, ?_⟩
    · cases cbFail <;> simp [sensorCallback, gatewayQueueStep, hl, hnb]
    · cases cbFail <;> simp
    · intro q2 hq2
      injection hq2 with hq2
      subst hq2
      cases cbFail <;> simp <;> exact lookupQueue_setQueue _ hl

/-- Concrete instance of the amended submit law: a registered queue of
capacity 2 holding two items accepts a third sample with a failing
custom callback, evicting the oldest item and logging only the callback
error. -/
theorem submit_never_blocks_amended_witness :
    (1 ≤ 2 ∧ ∀ p ∈ ([(0, [5, 6])] : List (Nat × List Nat)), List.length p.2 ≤ 2) ∧
    (∃ g, sensorCallback 2 ⟨[(0, [5, 6])], []⟩ 0 7 true = some g ∧
      g.logs = (if true then Gateway.logs ⟨[(0, [5, 6])], []⟩ ++ [sensorCallbackErrMsg]
        else Gateway.logs ⟨[(0, [5, 6])], []⟩) ∧
      (∀ q, lookupQueue (Gateway.queues ⟨[(0, [5, 6])], []⟩) 0 = some q →
        lookupQueue g.queues 0 = some ((if 2 ≤ q.length then q.tail else q) ++ [7]))) :=
  ⟨⟨by decide, by decide⟩,
    submit_never_blocks_amended 2 0 7 true ⟨[(0, [5, 6])], []⟩ (by decide) (by decide)⟩

/-! ### Frame indices on a (vehicle, modality) output stream

In recorder.py the metadata loop increments the per-vehicle counter
vehicle_data[name].frame_count once per world tick (lines 214-216),
while _process_sensor_data reads that same counter (line 254) and
writes the sample to a file named by it (frame_NNNNNN).  For one fixed
(vehicle, modality) pair the session is an interleaving of tick events
and sensor-write events over that shared counter. -/

/-- An event affecting one (vehicle, modality) stream: a world tick
(metadata loop increments frame_count) or a worker write of a dequeued
sample under the current frame_count. -/
inductive RecEvent
  | tick
  | sensorWrite
deriving DecidableEq

/-- The shared counter and the sequence of frame indices written so far
to the stream. -/
structure StreamState where
  frameCount : Nat
  written : List Nat
deriving DecidableEq

/-- One event step, from recorder.py lines 215-216 (tick) and lines
254, 267, 281, 290 (write named by the current counter). -/
def recStep (s : StreamState) : RecEvent → StreamState
  | .tick => { s with frameCount := s.frameCount + 1 }
  | .sensorWrite => { s with written := s.written ++ [s.frameCount] }

/-- A whole session for one stream, starting from counter 0 and an
empty output. -/
def runRec (events : List RecEvent) : StreamState :=
  events.foldl recStep ⟨0, []⟩

/-- C2 counterexample: two sensor samples of the same modality
processed between two ticks are written under the same frame index, so
the indices written to the stream are not strictly increasing. -/
theorem frame_indices_strict_counterexample :
    ¬ List.Chain' (fun a b => a < b)
      (runRec [RecEvent.tick, RecEvent.sensorWrite, RecEvent.sensorWrite]).written := by
  intro h
  have hw : (runRec [RecEvent.tick, RecEvent.sensorWrite, RecEvent.sensorWrite]).written
      = [1, 1] := rfl
  rw [hw, List.chain'_cons] at h
  exact absurd h.1 (by omega)

/-- The invariant maintained by every event: written indices are
non-decreasing and all bounded by the current counter. -/
def StreamInv (s : StreamState) : Prop :=
  List.Chain' (fun a b => a ≤ b) s.written ∧ ∀ i ∈ s.written, i ≤ s.frameCount

theorem recStep_inv {s : StreamState} (e : RecEvent) (h : StreamInv s) :
    StreamInv (recStep s e) := by
  obtain ⟨hchain, hbound⟩ := h
  cases e with
  | tick =>
    refine ⟨hchain, ?_⟩
    intro i hi
    have := hbound i hi
    simp [recStep]
    omega
  | sensorWrite =>
    have hw : (recStep s RecEvent.sensorWrite).written = s.written ++ [s.frameCount] := rfl
    have hf : (recStep s RecEvent.sensorWrite).frameCount = s.frameCount := rfl
    constructor
    · rw [hw]
      refine List.Chain'.append hchain (by simp) ?_
      intro a ha b hb
      have ha2 : a ∈ s.written := by
        rcases List.mem_getLast?_eq_getLast ha with ⟨hne, rfl⟩
        exact List.getLast_mem hne
      simp at hb
      subst hb
      exact hbound a ha2
    · intro i hi
      rw [hw] at hi
      rw [hf]
      simp at hi
      rcases hi with hi | hi
      · exact hbound i hi
      · omega

theorem runRec_foldl_inv (events : List RecEvent) :
    ∀ s : StreamState, StreamInv s → StreamInv (events.foldl recStep s) := by
  induction events with
  | nil => intro s h; simpa using h
  | cons e es ih =>
    intro s h
    exact ih _ (recStep_inv e h)

/-- C2 amended: for every interleaving of world ticks and sensor
writes, the frame indices written to a fixed (vehicle, modality) output
stream are non-decreasing — no reordering, gaps where ticks pass
without a write — but duplicates occur when several samples are
processed within one tick interval, because the index is the shared
metadata counter read at write time. -/
theorem frame_indices_monotone (events : List RecEvent) :
    List.Chain' (fun a b => a ≤ b) (runRec events).written ∧
    (∀ i ∈ (runRec events).written, i ≤ (runRec events).frameCount) := by
  have h := runRec_foldl_inv events ⟨0, []⟩ ⟨by simp, by simp⟩
  exact h

/-! ### Depth decode (recorder.py lines 270-282, data.py lines 121-133)

The payload is a flat H*W*4 byte buffer in BGRA channel order, so the
pixel bytes at offsets 0, 1, 2, 3 are B, G, R, alpha.  The source
computes, with array indexed [:, :, c]:

  depth_map = array[:, :, 2] + array[:, :, 1] * 256 + array[:, :, 0] * 256 * 256
  depth_map = depth_map.astype(float32) / (256 * 256 * 256 - 1)
  depth_map = depth_map * 1000

that is, R + G * 256 + B * 65536, normalised and scaled to meters.
Floats are modelled as exact rationals. -/

/-- The 24-bit integer reconstructed from one pixel, from the channel
offsets 2, 1, 0 of the BGRA layout (arguments in payload order b g r). -/
def depthValue (b g r : Nat) : Nat :=
  r + g * 256 + b * 256 * 256

/-- Full decode of one pixel to meters. -/
def decodeDepthPixel (b g r : Nat) : ℚ :=
  (depthValue b g r : ℚ) / (256 * 256 * 256 - 1) * 1000

/-- Reshape of the flat byte buffer into pixels of four channels, as
done by np.reshape(array, (H, W, 4)) with rows flattened. -/
def toPixels : List Nat → List (Nat × Nat × Nat × Nat)
  | b :: g :: r :: a :: rest => (b, g, r, a) :: toPixels rest
  | _ => []

/-- Decode of a whole flat payload to the flattened H*W depth map. -/
def decodeDepthImage (raw : List Nat) : List ℚ :=
  (toPixels raw).map fun p => decodeDepthPixel p.1 p.2.1 p.2.2.1

/-- The synthetic test buffer: n pixels, each with channel bytes
B = 255, G = 0, R = 0, alpha = 0. -/
def uniformDepthBuffer : Nat → List Nat
  | 0 => []
  | n + 1 => 255 :: 0 :: 0 :: 0 :: uniformDepthBuffer n

/-- C3 counterexample: a pixel with B = 255, G = 0, R = 0 does not
decode to 255 / (2^24 - 1) * 1000 meters, because the source assembles
the 24-bit value as R + G * 256 + B * 65536, not B + G * 256 + R * 65536
as claimed; a one-pixel buffer refutes the claimed scenario. -/
theorem depth_decode_counterexample :
    ¬ decodeDepthImage [255, 0, 0, 0] = [(255 : ℚ) / (2 ^ 24 - 1) * 1000] := by
  intro h
  have h1 : decodeDepthPixel 255 0 0 = (255 : ℚ) / (2 ^ 24 - 1) * 1000 := by
    have h2 : decodeDepthImage [255, 0, 0, 0] = [decodeDepthPixel 255 0 0] := rfl
    rw [h2] at h
    exact List.head_eq_of_cons_eq h
  rw [decodeDepthPixel] at h1
  norm_num [depthValue] at h1

/-- C3 amended: the decoder reconstructs each pixel depth as
R + G * 256 + B * 65536 over the BGRA channels, divides by 2^24 - 1 and
multiplies by 1000; a buffer with B = 255, G = 0, R = 0 on every pixel
decodes to 255 * 65536 / (2^24 - 1) * 1000 meters for every pixel. -/
theorem depth_decode_amended (b g r a n : Nat) :
    decodeDepthPixel b g r = ((r : ℚ) + g * 256 + b * 65536) / (2 ^ 24 - 1) * 1000 ∧
    toPixels [b, g, r, a] = [(b, g, r, a)] ∧
    decodeDepthImage (uniformDepthBuffer n)
      = List.replicate n ((255 : ℚ) * 65536 / (2 ^ 24 - 1) * 1000) := by
  refine ⟨?_, rfl, ?_⟩
  · rw [decodeDepthPixel, depthValue]
    push_cast
    ring_nf
  · induction n with
    | zero => rfl
    | succ m ih =>
      have hstep : decodeDepthImage (uniformDepthBuffer (m + 1))
          = decodeDepthPixel 255 0 0 :: decodeDepthImage (uniformDepthBuffer m) := rfl
      rw [hstep, ih, List.replicate_succ]
      congr 1
      rw [decodeDepthPixel, depthValue]
      norm_num

/-! ### Metadata rows (recorder.py lines 121-136 and 219-232)

start_recording opens each vehicle metadata.csv fresh and writes the
header row exactly once; the metadata loop then appends one 25-field
row per vehicle per tick, with the frame counter incremented before the
write.  Machine floats are modelled as reals. -/

/-- A three-component vector, as carla.Vector3D. -/
structure Vec3 where
  x : ℝ
  y : ℝ
  z : ℝ

/-- The control snapshot returned by vehicle.get_control(). -/
structure VehicleControl where
  throttle : ℝ
  steer : ℝ
  brake : ℝ
  hand_brake : Bool
  reverse : Bool
  gear : Int

/-- The per-tick kinematic and control snapshot of one vehicle, as read
by the metadata loop. -/
structure VehicleTick where
  timestamp : ℝ
  loc : Vec3
  pitch : ℝ
  yaw : ℝ
  roll : ℝ
  velocity : Vec3
  angularVelocity : Vec3
  acceleration : Vec3
  control : VehicleControl
  rpm : ℝ

/-- One CSV cell, preserving the Python value kinds written by
csv.writer. -/
inductive CsvCell
  | str (s : String)
  | nat (n : Nat)
  | real (x : ℝ)
  | int (z : Int)
  | bool (b : Bool)

/-- The header written once at file creation (recorder.py 127-136). -/
def metadataHeader : List String :=
  ["frame", "timestamp",
   "pos_x", "pos_y", "pos_z",
   "rot_pitch", "rot_yaw", "rot_roll",
   "vel_x", "vel_y", "vel_z",
   "ang_vel_x", "ang_vel_y", "ang_vel_z",
   "acc_x", "acc_y", "acc_z",
   "throttle", "steer", "brake", "handbrake", "reverse",
   "gear", "rpm", "speed_kmh"]

/-- One appended metadata row (recorder.py 219-228), in source order,
with speed_kmh computed as 3.6 * sqrt(vx^2 + vy^2 + vz^2). -/
noncomputable def metadataRowCells (frame : Nat) (v : VehicleTick) : List CsvCell :=
  [.nat frame, .real v.timestamp,
   .real v.loc.x, .real v.loc.y, .real v.loc.z,
   .real v.pitch, .real v.yaw, .real v.roll,
   .real v.velocity.x, .real v.velocity.y, .real v.velocity.z,
   .real v.angularVelocity.x, .real v.angularVelocity.y, .real v.angularVelocity.z,
   .real v.acceleration.x, .real v.acceleration.y, .real v.acceleration.z,
   .real v.control.throttle, .real v.control.steer, .real v.control.brake,
   .bool v.control.hand_brake, .bool v.control.reverse,
   .int v.control.gear, .real v.rpm,
   .real (3.6 * Real.sqrt (v.velocity.x ^ 2 + v.velocity.y ^ 2 + v.velocity.z ^ 2))]

/-- The metadata file of one vehicle over a session: the header row
written at creation, then one row per tick with the frame counter
starting at 1. -/
noncomputable def metadataFile (ticks : List VehicleTick) : List (List CsvCell) :=
  (metadataHeader.map CsvCell.str) ::
    ticks.enum.map fun p => metadataRowCells (p.1 + 1) p.2

/-- Recogniser of a header row: its first cell is a string, while every
data row starts with the numeric frame counter. -/
def isHeaderRow : List CsvCell → Bool
  | CsvCell.str _ :: _ => true
  | _ => false

/-- C4: every appended metadata row is a fixed 25-field record whose
cells follow the claimed order, whose last field is
3.6 * sqrt(vx^2 + vy^2 + vz^2) of that row's velocity, and the header
row with the claimed 25 column names appears exactly once per file,
written at creation. -/
theorem metadata_row_format (frame : Nat) (v : VehicleTick) (ticks : List VehicleTick) :
    metadataHeader =
      ["frame", "timestamp", "pos_x", "pos_y", "pos_z",
       "rot_pitch", "rot_yaw", "rot_roll",
       "vel_x", "vel_y", "vel_z",
       "ang_vel_x", "ang_vel_y", "ang_vel_z",
       "acc_x", "acc_y", "acc_z",
       "throttle", "steer", "brake", "handbrake", "reverse",
       "gear", "rpm", "speed_kmh"] ∧
    metadataHeader.length = 25 ∧
    (metadataRowCells frame v).length = 25 ∧
    (metadataRowCells frame v).getLast? =
      some (.real (3.6 * Real.sqrt (v.velocity.x ^ 2 + v.velocity.y ^ 2 + v.velocity.z ^ 2))) ∧
    (metadataFile ticks).countP isHeaderRow = 1 := by
  refine ⟨rfl, rfl, rfl, rfl, ?_⟩
  rw [metadataFile, List.countP_cons]
  have hhead : isHeaderRow (metadataHeader.map CsvCell.str) = true := rfl
  have hrows : (ticks.enum.map fun p => metadataRowCells (p.1 + 1) p.2).countP isHeaderRow = 0 := by
    rw [List.countP_eq_zero]
    intro row hrow
    rcases List.mem_map.mp hrow with ⟨p, hp, rfl⟩
    have hdata : isHeaderRow (metadataRowCells (p.1 + 1) p.2) = false := rfl
    simp [hdata]
  rw [hrows]
  simp [hhead]

/-! ### Metadata flush policy (recorder.py lines 214-232)

Per vehicle, each metadata iteration increments frame_count, appends
the row, and flushes the file when frame % 10 == 0.  A flush makes
every row appended so far durable. -/

/-- Durability state of one vehicle metadata file: rows appended (the
frame counter) and rows known durable after the last flush. -/
structure MetadataFileState where
  frame_count : Nat
  flushedRows : Nat
deriving DecidableEq

/-- One metadata iteration for one vehicle: increment the counter,
append the row, flush when the counter is a multiple of 10. -/
def metadataAppendStep (s : MetadataFileState) : MetadataFileState :=
  let frame := s.frame_count + 1
  { frame_count := frame
    flushedRows := if frame % 10 = 0 then frame else s.flushedRows }

/-- The state after k appended rows, starting from a fresh file. -/
def metadataAppends (k : Nat) : MetadataFileState :=
  metadataAppendStep^[k] ⟨0, 0⟩

/-- C5: after k appended rows the flushed prefix is the largest
multiple of 10 below or at k, so at most 9 rows are ever unflushed, a
flush happens exactly when the frame counter is a multiple of 10, and
after exactly 10 rows all 10 are durable. -/
theorem metadata_flush_law (k : Nat) :
    (metadataAppends k).frame_count = k ∧
    (metadataAppends k).flushedRows = k - k % 10 ∧
    (metadataAppends k).frame_count - (metadataAppends k).flushedRows ≤ 9 ∧
    ((metadataAppends k).flushedRows = k ↔ k % 10 = 0) ∧
    (metadataAppends 10).flushedRows = 10 := by
  have main : ∀ m : Nat, (metadataAppends m).frame_count = m ∧
      (metadataAppends m).flushedRows = m - m % 10 := by
    intro m
    induction m with
    | zero => exact ⟨rfl, rfl⟩
    | succ j ihj =>
      obtain ⟨ih1, ih2⟩ := ihj
      have hstep : metadataAppends (j + 1) = metadataAppendStep (metadataAppends j) := by
        rw [metadataAppends, Function.iterate_succ_apply']
        rfl
      rw [hstep, metadataAppendStep, ih1, ih2]
      constructor
      · rfl
      · by_cases h10 : (j + 1) % 10 = 0
        · simp [h10]
        · simp [h10]
          omega
  obtain ⟨h1, h2⟩ := main k
  obtain ⟨_, h10⟩ := main 10
  refine ⟨h1, h2, ?_, ?_, ?_⟩
  · rw [h1, h2]
    omega
  · rw [h2]
    omega
  · rw [h10]

/-! ### Recorder lifecycle (recorder.py lines 94-189)

start_recording: if already recording, log a warning and return.
Otherwise, inside a try block: create the output directory; for each
hero vehicle create its directory and three modality subdirectories,
open metadata.csv and write the header, and start up to three sensor
worker threads; then set the recording flag, clear the stop event,
start the metadata thread, and log that recording started.  The except
branch logs the error and calls stop_recording, which returns
immediately when the recording flag is still false; the caller of
start_recording never sees an exception.

Failure is injected as the index of the vehicle whose metadata.csv
open raises (after its directories were created), modelling a
StartupError. -/

/-- Observable recorder state: the flag, the stop event, and counters
of created directories, open metadata files, running sensor workers and
metadata threads, plus the log. -/
structure RecorderState where
  recording : Bool
  stopEventSet : Bool
  dirsCreated : Nat
  openCsvFiles : Nat
  sensorWorkers : Nat
  metadataThreads : Nat
  logs : List String
deriving DecidableEq

/-- Warning logged by a second start (recorder.py line 102). -/
def warnAlreadyMsg : String := "Recording already in progress"

/-- Error logged by the except branch of start_recording (line 162). -/
def errStartMsg : String := "Error starting recording"

/-- Log line of a completed start (line 159). -/
def startedMsg : String := "Recording started"

/-- Log line of a completed stop (line 186). -/
def stoppedMsg : String := "Recording stopped"

/-- Successful setup of one vehicle: its directory plus rgb, depth and
lidar subdirectories, one opened metadata.csv with header, and three
sensor worker threads. -/
def setupVehicle (st : RecorderState) : RecorderState :=
  { st with dirsCreated := st.dirsCreated + 4,
            openCsvFiles := st.openCsvFiles + 1,
            sensorWorkers := st.sensorWorkers + 3 }

/-- Setup loop over vehicles i, i+1, ... with m vehicles left; when
failAt names the current vehicle, its directories are created and the
metadata.csv open raises, carrying the partial state. -/
def setupVehicles : Nat → Nat → Option Nat → RecorderState → Except RecorderState RecorderState
  | _, 0, _, st => .ok st
  | i, m + 1, failAt, st =>
    if failAt = some i then .error { st with dirsCreated := st.dirsCreated + 4 }
    else setupVehicles (i + 1) m failAt (setupVehicle st)

/-- stop_recording (lines 165-189): a no-op unless recording; otherwise
clear the flag, set the stop event, close the metadata files and log. -/
def stopRecording (st : RecorderState) : RecorderState :=
  if st.recording = false then st
  else { st with recording := false, stopEventSet := true, openCsvFiles := 0,
                 logs := st.logs ++ [stoppedMsg] }

/-- start_recording over n vehicles with an injected setup failure.
The second component is what the caller observes: always ok, since the
try/except swallows the failure. -/
def startRecording (st : RecorderState) (n : Nat) (failAt : Option Nat) :
    RecorderState × Except String Unit :=
  if st.recording then
    ({ st with logs := st.logs ++ [warnAlreadyMsg] }, .ok ())
  else
    match setupVehicles 0 n failAt { st with dirsCreated := st.dirsCreated + 1 } with
    | .ok st1 =>
      ({ st1 with recording := true, stopEventSet := false,
                  metadataThreads := st1.metadataThreads + 1,
                  logs := st1.logs ++ [startedMsg] }, .ok ())
    | .error stp =>
      (stopRecording { stp with logs := stp.logs ++ [errStartMsg] }, .ok ())

/-- A fresh recorder before any session. -/
def freshRecorder : RecorderState :=
  ⟨false, false, 0, 0, 0, 0, []⟩

/-- C6 counterexample: with two vehicles and the second vehicle's
metadata.csv open failing, start_recording returns normally (the error
is not propagated) while the first vehicle's opened file and started
workers remain, so the claim fails on this input. -/
theorem start_failure_counterexample :
    ¬ ((∃ e, (startRecording freshRecorder 2 (some 1)).2 = .error e) ∧
       (startRecording freshRecorder 2 (some 1)).1.sensorWorkers = 0 ∧
       (startRecording freshRecorder 2 (some 1)).1.openCsvFiles = 0) := by
  intro h
  obtain ⟨⟨e, he⟩, _, _⟩ := h
  have hr : (startRecording freshRecorder 2 (some 1)).2 = .ok () := rfl
  rw [hr] at he
  cases he

theorem setupVehicles_fail :
    ∀ (m j i : Nat) (st : RecorderState), j ≤ i → i < j + m →
      setupVehicles j m (some i) st = .error
        { st with dirsCreated := st.dirsCreated + 4 * (i - j) + 4,
                  openCsvFiles := st.openCsvFiles + (i - j),
                  sensorWorkers := st.sensorWorkers + 3 * (i - j) } := by
  intro m
  induction m with
  | zero =>
    intro j i st hj hi
    omega
  | succ m ih =>
    intro j i st hj hi
    by_cases hij : i = j
    · subst hij
      simp only [setupVehicles, if_pos rfl]
      cases st
      simp
    · have hne : (some i : Option Nat) ≠ some j := by simpa using hij
      simp only [setupVehicles, if_neg hne]
      rw [ih (j + 1) i (setupVehicle st) (by omega) (by omega)]
      cases st
      simp [setupVehicle]
      omega

/-- C6 amended: when session setup fails (a vehicle metadata.csv open
raises during start), start_recording catches the error, logs it and
returns normally to the caller instead of propagating; the pipeline is
not left in the Recording state, but the cleanup call stop_recording
returns immediately because the recording flag was never set, so the
metadata files opened and the workers started before the failure
remain. -/
theorem start_failure_contained (st : RecorderState) (n i : Nat)
    (hrec : st.recording = false) (hi : i < n) :
    (startRecording st n (some i)).2 = .ok () ∧
    (startRecording st n (some i)).1.recording = false ∧
    errStartMsg ∈ (startRecording st n (some i)).1.logs ∧
    (startRecording st n (some i)).1.openCsvFiles = st.openCsvFiles + i ∧
    (startRecording st n (some i)).1.sensorWorkers = st.sensorWorkers + 3 * i := by
  have hfail := setupVehicles_fail n 0 i { st with dirsCreated := st.dirsCreated + 1 }
    (Nat.zero_le i) (by omega)
  obtain ⟨rec, sev, dirs, files, workers, mthreads, lgs⟩ := st
  have hrec' : rec = false := hrec
  subst hrec'
  have hmain : startRecording ⟨false, sev, dirs, files, workers, mthreads, lgs⟩ n (some i)
      = ({ recording := false, stopEventSet := sev,
           dirsCreated := dirs + 1 + 4 * (i - 0) + 4,
           openCsvFiles := files + (i - 0),
           sensorWorkers := workers + 3 * (i - 0),
           metadataThreads := mthreads,
           logs := lgs ++ [errStartMsg] }, .ok ()) := by
    simp only [startRecording, Bool.false_eq_true, if_false, hfail]
    simp [stopRecording]
  rw [hmain]
  refine ⟨rfl, rfl, ?_, ?_, ?_⟩
  · simp
  · simp
  · simp

/-- Concrete instance of the contained startup failure: two vehicles,
the second vehicle's metadata.csv open raises; the caller sees a normal
return while one open file and three workers remain. -/
theorem start_failure_contained_witness :
    (freshRecorder.recording = false ∧ 1 < 2) ∧
    ((startRecording freshRecorder 2 (some 1)).2 = .ok () ∧
     (startRecording freshRecorder 2 (some 1)).1.recording = false ∧
     errStartMsg ∈ (startRecording freshRecorder 2 (some 1)).1.logs ∧
     (startRecording freshRecorder 2 (some 1)).1.openCsvFiles = freshRecorder.openCsvFiles + 1 ∧
     (startRecording freshRecorder 2 (some 1)).1.sensorWorkers
       = freshRecorder.sensorWorkers + 3 * 1) :=
  ⟨⟨rfl, by decide⟩, start_failure_contained freshRecorder 2 1 rfl (by decide)⟩

/-- C7: calling start while already Recording only logs a warning and
returns; the flag, the directories, the open files, the sensor workers
and the metadata threads are all unchanged, so exactly the one existing
worker set remains. -/
theorem start_idempotent (st : RecorderState) (n : Nat) (failAt : Option Nat)
    (h : st.recording = true) :
    startRecording st n failAt = ({ st with logs := st.logs ++ [warnAlreadyMsg] }, .ok ()) ∧
    (startRecording st n failAt).1.recording = st.recording ∧
    (startRecording st n failAt).1.dirsCreated = st.dirsCreated ∧
    (startRecording st n failAt).1.openCsvFiles = st.openCsvFiles ∧
    (startRecording st n failAt).1.sensorWorkers = st.sensorWorkers ∧
    (startRecording st n failAt).1.metadataThreads = st.metadataThreads := by
  have hmain : startRecording st n failAt
      = ({ st with logs := st.logs ++ [warnAlreadyMsg] }, .ok ()) := by
    simp [startRecording, h]
  refine ⟨hmain, ?_, ?_, ?_, ?_, ?_⟩ <;> rw [hmain]

/-- Concrete instance of the double-start no-op on a recorder that is
already recording with one worker set. -/
theorem start_idempotent_witness :
    RecorderState.recording ⟨true, false, 5, 1, 3, 1, []⟩ = true ∧
    (startRecording ⟨true, false, 5, 1, 3, 1, []⟩ 2 none
       = ({ (⟨true, false, 5, 1, 3, 1, []⟩ : RecorderState) with
            logs := RecorderState.logs ⟨true, false, 5, 1, 3, 1, []⟩ ++ [warnAlreadyMsg] },
          .ok ()) ∧
     (startRecording ⟨true, false, 5, 1, 3, 1, []⟩ 2 none).1.recording
       = RecorderState.recording ⟨true, false, 5, 1, 3, 1, []⟩ ∧
     (startRecording ⟨true, false, 5, 1, 3, 1, []⟩ 2 none).1.dirsCreated
       = RecorderState.dirsCreated ⟨true, false, 5, 1, 3, 1, []⟩ ∧
     (startRecording ⟨true, false, 5, 1, 3, 1, []⟩ 2 none).1.openCsvFiles
       = RecorderState.openCsvFiles ⟨true, false, 5, 1, 3, 1, []⟩ ∧
     (startRecording ⟨true, false, 5, 1, 3, 1, []⟩ 2 none).1.sensorWorkers
       = RecorderState.sensorWorkers ⟨true, false, 5, 1, 3, 1, []⟩ ∧
     (startRecording ⟨true, false, 5, 1, 3, 1, []⟩ 2 none).1.metadataThreads
       = RecorderState.metadataThreads ⟨true, false, 5, 1, 3, 1, []⟩) :=
  ⟨rfl, start_idempotent ⟨true, false, 5, 1, 3, 1, []⟩ 2 none rfl⟩

/-! ### Modality worker loop (sensor.py lines 175-192)

process_loop: while the stop event is not set, dequeue with a 1 second
timeout; on timeout continue; on success run the processor; any other
exception is caught and logged, and the loop continues.  Each iteration
is driven by what the environment offers: a timeout, a sample whose
processing succeeds, or a sample whose decode or write raises. -/

/-- What one loop iteration observes from the queue: a dequeue timeout,
a sample processed successfully, or a sample whose processing raises. -/
inductive IterEvent
  | timeout
  | good (s : Nat)
  | bad (s : Nat)
deriving DecidableEq

/-- Worker-visible effects: samples written out and errors logged. -/
structure WorkerState where
  processed : List Nat
  errorLogs : Nat
deriving DecidableEq

/-- The body of one iteration, after the stop check: timeout continues,
a good sample is processed, a bad sample only logs the caught error. -/
def workerIter (st : WorkerState) : IterEvent → WorkerState
  | .timeout => st
  | .good s => { st with processed := st.processed ++ [s] }
  | .bad _ => { st with errorLogs := st.errorLogs + 1 }

/-- The loop over a finite trace of (stop-event value, iteration event)
pairs.  The Bool in the result records whether the loop exited by
observing the cancellation signal; if the trace runs out the worker is
still running. -/
def workerRun (st : WorkerState) : List (Bool × IterEvent) → WorkerState × Bool
  | [] => (st, false)
  | (stop, e) :: rest =>
    if stop then (st, true) else workerRun (workerIter st e) rest

/-- C9: a sample whose decode or write raises is caught and logged
inside the worker and skipped (nothing is appended to the output), the
loop goes on to the next iteration unchanged otherwise, and as long as
the shared cancellation signal stays unset the worker never exits —
it terminates only via that signal. -/
theorem worker_survives_bad_samples (st : WorkerState) (s : Nat)
    (rest tr : List (Bool × IterEvent))
    (hstops : ∀ p ∈ tr, p.1 = false) :
    workerRun st ((false, IterEvent.bad s) :: rest)
      = workerRun { st with errorLogs := st.errorLogs + 1 } rest ∧
    (workerIter st (IterEvent.bad s)).processed = st.processed ∧
    (workerIter st (IterEvent.bad s)).errorLogs = st.errorLogs + 1 ∧
    (workerRun st tr).2 = false := by
  refine ⟨rfl, rfl, rfl, ?_⟩
  induction tr generalizing st with
  | nil => rfl
  | cons p rest2 ih =>
    obtain ⟨stop, e⟩ := p
    have hstop : stop = false := hstops (stop, e) (List.mem_cons_self _ _)
    subst hstop
    rw [workerRun]
    simp only [if_false, Bool.false_eq_true]
    exact ih (workerIter st e) fun q hq => hstops q (List.mem_cons_of_mem _ hq)

/-- Concrete instance of worker survival: one bad sample among good
ones, a stop-free trace, worker still running at the end. -/
theorem worker_survives_bad_samples_witness :
    (∀ p ∈ ([(false, IterEvent.bad 2), (false, IterEvent.timeout),
             (false, IterEvent.good 3)] : List (Bool × IterEvent)), p.1 = false) ∧
    (workerRun ⟨[], 0⟩ ((false, IterEvent.bad 7) :: [(false, IterEvent.good 1)])
       = workerRun { (⟨[], 0⟩ : WorkerState) with
                     errorLogs := WorkerState.errorLogs ⟨[], 0⟩ + 1 } [(false, IterEvent.good 1)] ∧
     (workerIter ⟨[], 0⟩ (IterEvent.bad 7)).processed = WorkerState.processed ⟨[], 0⟩ ∧
     (workerIter ⟨[], 0⟩ (IterEvent.bad 7)).errorLogs = WorkerState.errorLogs ⟨[], 0⟩ + 1 ∧
     (workerRun ⟨[], 0⟩ [(false, IterEvent.bad 2), (false, IterEvent.timeout),
                         (false, IterEvent.good 3)]).2 = false) :=
  ⟨by decide,
    worker_survives_bad_samples ⟨[], 0⟩ 7 [(false, IterEvent.good 1)]
      [(false, IterEvent.bad 2), (false, IterEvent.timeout), (false, IterEvent.good 3)]
      (by decide)⟩

/-! ### CarlaDataProcessor.stop (data.py lines 243-259)

The instance attributes assigned anywhere in the class are those set in
the constructor (data.py lines 22-37); _process_metadata keeps its CSV
handles in the local variable csv_files (line 177), never on self.
stop sets the stop event, joins the threads, and then reads
self._csv_files, which was never assigned, so Python raises
AttributeError there, before the close loop and the final log line. -/

/-- Every attribute name assigned on self anywhere in
CarlaDataProcessor. -/
def dataProcessorAttrs : List String :=
  ["output_dir", "image_queue", "lidar_queue", "metadata_queue",
   "threads", "stop_event", "session_id", "session_dir"]

/-- A Python exception relevant here. -/
inductive PyExc
  | attributeError (name : String)
deriving DecidableEq

/-- Attribute lookup on a CarlaDataProcessor instance: AttributeError
when the name was never assigned. -/
def getAttribute (name : String) : Except PyExc Unit :=
  if name ∈ dataProcessorAttrs then .ok () else .error (.attributeError name)

/-- Effects of a call to stop, in source order. -/
structure StopTrace where
  stopEventSet : Bool
  threadsJoined : Bool
  csvFilesClosed : Bool
  loggedStopped : Bool
deriving DecidableEq

/-- CarlaDataProcessor.stop: set the stop event, join the threads, then
iterate over self._csv_files to close the files and log completion; the
attribute read happens before the close loop. -/
def dataProcessorStop : StopTrace × Except PyExc Unit :=
  let afterJoin : StopTrace := ⟨true, true, false, false⟩
  match getAttribute "_csv_files" with
  | .error e => (afterJoin, .error e)
  | .ok _ => (⟨true, true, true, true⟩, .ok ())

/-- C10: stop always raises AttributeError for _csv_files, because no
method of CarlaDataProcessor ever assigns that attribute, and therefore
the metadata CSV files are never closed by stop. -/
theorem data_processor_stop_raises :
    "_csv_files" ∉ dataProcessorAttrs ∧
    dataProcessorStop.2 = .error (.attributeError "_csv_files") ∧
    dataProcessorStop.1.csvFilesClosed = false ∧
    dataProcessorStop.1.loggedStopped = false := by
  refine ⟨by decide, ?_, ?_, ?_⟩ <;> rfl
